import Mathlib

/-!
A verification development for the live interview session controller
implemented in `frontend/app/interview/[jobId]/[resumeId]/page.tsx`.

The React component is embedded shallowly: every `useState` hook (and the
mutable refs `bufferRef`, `recorderRef`, `dgConnRef`, and the registered
`onended` handler) becomes a field of the state record `St`, and every event
handler or callback of the page becomes a pure function `St → ... → St`.
External outcomes that the browser decides (permission grants, fullscreen
success, token fetches, codec support) are passed as explicit parameters.
Messages passed to `ws.send` are accumulated in the ghost field `sent`, and
texts handed to the speech playback path in the ghost field `spoken`.

JavaScript string operations used by the page (`String.prototype.trim`,
`String.prototype.includes`) are embedded as executable functions on the
character list underlying a `String`, because Lean's own `String.trim` is
not kernel-reducible.
-/

namespace InterviewPage

/-- Whitespace test used by the embedded JavaScript `trim`. -/
def isWs (c : Char) : Bool := c.isWhitespace

/-- Drop leading whitespace characters. -/
def ltrim (l : List Char) : List Char := l.dropWhile isWs

/-- Drop trailing whitespace characters. -/
def rtrim (l : List Char) : List Char := (l.reverse.dropWhile isWs).reverse

/-- Embedding of JavaScript `s.trim()`: removes leading and trailing
whitespace. -/
def jsTrim (s : String) : String := ⟨rtrim (ltrim s.data)⟩

/-- Embedding of JavaScript `t.includes(sub)`: substring containment. -/
def jsIncludes (t sub : String) : Bool :=
  (List.range (t.data.length + 1)).any fun i => sub.data.isPrefixOf (t.data.drop i)

/-- JavaScript truthiness of a possibly-absent string field: present and
non-empty. -/
def jsTruthyStr : Option String → Bool
  | some t => !(t == "")
  | none => false

/-- Embedding of `x || d` for a possibly-absent JavaScript number field
(`undefined` and `0` are falsy). -/
def jsOrNat : Option Nat → Nat → Nat
  | some v, d => if v = 0 then d else v
  | none,   d => d

/-- Embedding of `x >= d` for a possibly-absent JavaScript number
(`undefined >= d` is `false`). -/
def jsGeNat : Option Nat → Nat → Bool
  | some v, d => d ≤ v
  | none,   _ => false

/-- Camera / microphone permission state (`'granted' | 'denied' | 'prompt'`). -/
inductive Perm
  | granted
  | denied
  | prompt
deriving DecidableEq, Repr

/-- The `setupStep` state variable
(`'permissions' | 'voice-selection' | 'screen-share' | 'ready'`). -/
inductive SetupStep
  | permissions
  | voiceSelection
  | screenShare
  | ready
deriving DecidableEq, Repr

/-- Outbound frames passed to `ws.send`, by their JSON shape in the source. -/
inductive OutMsg
  | screenShare (action : String)
  | tabSwitch (count : Nat)
  | fullscreenViolation (count : Nat)
  | answerMsg (text : String) (reason : Option String) (violationCount : Option Nat)
deriving DecidableEq, Repr

/-- A parsed inbound JSON frame, as destructured by `socket.onmessage`:
`const { text, question_count, max_questions, type } = data` plus the
`data.error` check. Absent fields are `none` (JavaScript `undefined`). -/
structure Frame where
  error : Option String
  text : Option String
  question_count : Option Nat
  max_questions : Option Nat
  ty : Option String
deriving DecidableEq, Repr

/-- An inbound socket event: either a frame that parsed as JSON, or a frame
on which `JSON.parse` threw. -/
inductive Inbound
  | notJson
  | frame (f : Frame)
deriving DecidableEq, Repr

/-- Outcome of `document.documentElement.requestFullscreen()` inside
`enterFullscreen`: the API may be absent, succeed, or reject. -/
inductive FsOutcome
  | apiMissing
  | ok
  | fail
deriving DecidableEq, Repr

/-- `const TIMER_SEC = 600` (10 minutes). -/
def TIMER_SEC : Nat := 600

/-- The component state: one field per `useState` hook or mutable ref of the
page, plus the ghost logs `sent` (arguments of `ws.send` calls) and `spoken`
(texts handed to the TTS path). `onendedRegistered` / `onendedSetupComplete` /
`onendedWsPresent` record the one-shot `onended` handler installed by
`startScreenShare` together with the values of `setupComplete` and `ws`
captured by its JavaScript closure at registration time. -/
structure St where
  wsPresent : Bool
  wsOpen : Bool
  isConnected : Bool
  error : Option String
  questionCount : Option Nat
  maxQuestions : Nat
  isComplete : Bool
  setupComplete : Bool
  cameraPermission : Perm
  micPermission : Perm
  screenShareActive : Bool
  setupStep : SetupStep
  videoStreamPresent : Bool
  audioStreamPresent : Bool
  screenStreamPresent : Bool
  isListening : Bool
  isSpeaking : Bool
  currentTranscript : String
  aiResponse : String
  buffer : String
  selectedVoice : Option String
  tabSwitchCount : Nat
  proctorWarning : Option String
  interviewEndedByProctor : Bool
  fullscreenExitCount : Nat
  fullscreenWarning : Option String
  isFullscreen : Bool
  showFullscreenPrompt : Bool
  timerSec : Nat
  timerActive : Bool
  recorderPresent : Bool
  recorderMime : Option String
  dgPresent : Bool
  onendedRegistered : Bool
  onendedSetupComplete : Bool
  onendedWsPresent : Bool
  sent : List OutMsg
  spoken : List String
deriving DecidableEq, Repr

/-- The initial values of every hook of the component. -/
def initialState : St where
  wsPresent := false
  wsOpen := false
  isConnected := false
  error := none
  questionCount := some 0
  maxQuestions := 8
  isComplete := false
  setupComplete := false
  cameraPermission := Perm.prompt
  micPermission := Perm.prompt
  screenShareActive := false
  setupStep := SetupStep.permissions
  videoStreamPresent := false
  audioStreamPresent := false
  screenStreamPresent := false
  isListening := false
  isSpeaking := false
  currentTranscript := ""
  aiResponse := ""
  buffer := ""
  selectedVoice := none
  tabSwitchCount := 0
  proctorWarning := none
  interviewEndedByProctor := false
  fullscreenExitCount := 0
  fullscreenWarning := none
  isFullscreen := false
  showFullscreenPrompt := false
  timerSec := TIMER_SEC
  timerActive := false
  recorderPresent := false
  recorderMime := none
  dgPresent := false
  onendedRegistered := false
  onendedSetupComplete := false
  onendedWsPresent := false
  sent := []
  spoken := []

/-- The `{ answer: "end interview" }` frame used by the proctoring, timer and
end-button paths to request termination. -/
def endInterviewMsg : OutMsg := OutMsg.answerMsg "end interview" none none

/-- Recognizes an end-of-session request among outbound frames: any
`{ answer: "end interview", ... }` frame. -/
def isEndMessage : OutMsg → Bool
  | OutMsg.answerMsg t _ _ => t == "end interview"
  | _ => false

/-- Number of end-of-session requests in a send log. -/
def endCount (l : List OutMsg) : Nat := (l.filter isEndMessage).length

/-- Success path of `requestPermissions()`: both `getUserMedia` calls
resolve, so the streams are stored, both permissions become `granted`, and
the setup step is set to `'screen-share'` (line 156 of the page). -/
def requestPermissionsSuccess (s : St) : St :=
  { s with videoStreamPresent := true
           cameraPermission := Perm.granted
           audioStreamPresent := true
           micPermission := Perm.granted
           setupStep := SetupStep.screenShare }

/-- Denial path of `requestPermissions()` (a `NotAllowedError`): both
permissions become `denied` and an error is surfaced; the step is not
changed. -/
def requestPermissionsDenied (s : St) : St :=
  { s with cameraPermission := Perm.denied
           micPermission := Perm.denied
           error := some "Camera and microphone access are required for the interview. Please enable permissions and refresh." }

/-- Success path of `startScreenShare()`: stores the stream, marks the share
active, advances the step to `'ready'`, and installs the one-shot `onended`
handler on the video track. The handler is a JavaScript closure, so the
values of `setupComplete` and `ws` it will later read are the ones of the
render in which `startScreenShare` ran; they are captured here in the
`onended*` fields. -/
def startScreenShareSuccess (s : St) : St :=
  { s with screenStreamPresent := true
           screenShareActive := true
           setupStep := SetupStep.ready
           onendedRegistered := true
           onendedSetupComplete := s.setupComplete
           onendedWsPresent := s.wsPresent }

/-- The user ends the screen share: fires the registered `onended` handler,
which sets `screenShareActive` to `false` and sends
`{ type: "screen-share", action: "ended" }` only if the captured
`setupComplete && ws` guard passes. -/
def screenShareEnded (s : St) : St :=
  if s.onendedRegistered = true then
    let s1 := { s with screenShareActive := false }
    if s1.onendedSetupComplete = true ∧ s1.onendedWsPresent = true then
      { s1 with sent := s1.sent ++ [OutMsg.screenShare "ended"] }
    else s1
  else s

/-- Effect of `enterFullscreen()`: requests fullscreen when the API exists;
on rejection the catch surfaces an error. No other state is touched. -/
def enterFullscreenEff (s : St) (fs : FsOutcome) : St :=
  match fs with
  | FsOutcome.fail =>
      { s with error := some "Fullscreen mode is required for the interview. Please allow fullscreen access." }
  | _ => s

/-- The guard of `completeSetup()`:
`cameraPermission === 'granted' && micPermission === 'granted' && screenShareActive`. -/
def setupPreconds (s : St) : Bool :=
  s.cameraPermission = Perm.granted ∧ s.micPermission = Perm.granted ∧
    s.screenShareActive = true

/-- `completeSetup()`: when the guard passes it awaits `enterFullscreen()`
(whose failures are caught inside `enterFullscreen` itself) and then
unconditionally sets `setupComplete` and starts the timer. -/
def completeSetup (s : St) (fs : FsOutcome) : St :=
  if setupPreconds s = true then
    let s1 := enterFullscreenEff s fs
    { s1 with setupComplete := true, timerActive := true }
  else s

/-- The WebSocket effect reaching `socket.onopen`: the socket is stored and
open, `isConnected` is set, the error is cleared, and
`{ type: "screen-share", action: "started" }` is sent immediately. -/
def onWsOpen (s : St) : St :=
  { s with wsPresent := true
           wsOpen := true
           isConnected := true
           error := none
           sent := s.sent ++ [OutMsg.screenShare "started"] }

/-- `socket.onclose`: connection flag cleared; a non-normal close code
surfaces a connection-lost error. -/
def onWsClose (s : St) (code : Nat) : St :=
  let s1 := { s with isConnected := false }
  if code ≠ 1000 then { s1 with error := some "Connection lost. Please refresh." } else s1

/-- The `!type?.includes('screen_share')` test of the `onmessage` handler
(`undefined?.includes` is `undefined`, hence falsy). -/
def tyIncludesScreenShare : Option String → Bool
  | some t => jsIncludes t "screen_share"
  | none => false

/-- `speakText(text)`: returns immediately on blank text; otherwise sets the
speaking flag, hands the text to ElevenLabs when available and successful,
else falls back to browser speech synthesis when present; every path resets
`isSpeaking` to `false` once playback (or the attempt) finishes. The text
actually voiced is recorded in the ghost `spoken` log. -/
def speakText (s : St) (text : String) (ttsOk synthAvail : Bool) : St :=
  if jsTrim text = "" then s
  else
    let s1 := { s with isSpeaking := true }
    if ttsOk = true then
      { s1 with spoken := s1.spoken ++ [text], isSpeaking := false }
    else if synthAvail = true then
      { s1 with spoken := s1.spoken ++ [text], isSpeaking := false }
    else
      { s1 with isSpeaking := false }

/-- `socket.onmessage`: `JSON.parse` failure is caught and surfaces
"Invalid response from server"; a truthy `data.error` is surfaced and stops
processing; `screen_share_request` is acknowledged with a `started` reply;
`screen_share_confirmed` is a no-op; `interview_complete` marks the status
complete; every other frame flows into the question branch which updates the
status from the frame fields; finally a truthy `text` on a
non-screen-share-typed frame is stored as the AI response and spoken. -/
def onMessage (s : St) (m : Inbound) (ttsOk synthAvail : Bool) : St :=
  match m with
  | Inbound.notJson => { s with error := some "Invalid response from server" }
  | Inbound.frame f =>
    if jsTruthyStr f.error = true then { s with error := f.error }
    else if f.ty = some "screen_share_request" then
      { s with sent := s.sent ++ [OutMsg.screenShare "started"] }
    else if f.ty = some "screen_share_confirmed" then s
    else
      let s1 :=
        if f.ty = some "interview_complete" then
          { s with questionCount := some (jsOrNat f.max_questions s.maxQuestions)
                   maxQuestions := jsOrNat f.max_questions s.maxQuestions
                   isComplete := true }
        else
          { s with questionCount := f.question_count
                   maxQuestions := jsOrNat f.max_questions s.maxQuestions
                   isComplete := jsGeNat f.question_count (jsOrNat f.max_questions s.maxQuestions) }
      match f.text with
      | some t =>
          if t ≠ "" ∧ tyIncludesScreenShare f.ty = false then
            speakText { s1 with aiResponse := t } t ttsOk synthAvail
          else s1
      | none => s1

/-- `cleanupVoice()`: stops the recorder and transcription connection, nulls
both refs, clears the listening flag, the interim transcript and the
buffer. -/
def cleanupVoice (s : St) : St :=
  { s with recorderPresent := false
           dgPresent := false
           isListening := false
           currentTranscript := ""
           buffer := "" }

/-- The candidate MIME types tried by `startListening`, in order. -/
def supportedTypes : List String :=
  ["audio/webm;codecs=opus", "audio/webm", "audio/ogg;codecs=opus", "audio/mp4", "audio/wav"]

/-- The MIME-type selection loop: the first candidate accepted by
`MediaRecorder.isTypeSupported`, if any. -/
def pickMime (isSup : String → Bool) : Option String :=
  supportedTypes.find? isSup

/-- `startListening()`: bails out silently unless the audio stream exists
and the socket is open; resets the capture state and sets `isListening`;
then fetches a token, acquires a dedicated recording stream, selects a MIME
type (falling back to the recorder default when none of the candidates is
supported), constructs the recorder and opens the Deepgram live connection.
Any thrown step lands in the catch, which surfaces an error (the
message-detail suffix of the source is abstracted away) and clears
`isListening`. `tokenOk`, `recStreamOk` and `ctorOk` are the external
outcomes of the token fetch, the `getUserMedia` call and the
`MediaRecorder` constructor. -/
def startListening (s : St) (isSup : String → Bool)
    (tokenOk recStreamOk ctorOk : Bool) : St :=
  if s.audioStreamPresent = true ∧ s.wsPresent = true ∧ s.wsOpen = true then
    let s1 := cleanupVoice s
    let s2 := { s1 with isListening := true, currentTranscript := "", buffer := "" }
    if tokenOk = false then
      { s2 with error := some "Could not start voice recognition.", isListening := false }
    else if recStreamOk = false then
      { s2 with error := some "Could not start voice recognition.", isListening := false }
    else if ctorOk = false then
      { s2 with error := some "Could not start voice recognition.", isListening := false }
    else
      { s2 with recorderPresent := true
                recorderMime := pickMime isSup
                dgPresent := true }
  else s

/-- `buffer += (buffer ? " " : "") + txt`, the appending step of the
Deepgram transcript handler. -/
def appendChunk (b t : String) : String :=
  b ++ (if b = "" then "" else " ") ++ t

/-- The Deepgram `Transcript` event handler: trims the fragment; a
non-empty final fragment is appended to the buffer (single-space
separated) and mirrored into the interim display; a non-empty interim
fragment only updates the display. -/
def onTranscript (s : St) (raw : String) (isFinal : Bool) : St :=
  let txt := jsTrim raw
  if txt ≠ "" ∧ isFinal = true then
    let b := appendChunk s.buffer txt
    { s with buffer := b, currentTranscript := b }
  else if txt ≠ "" then
    { s with currentTranscript := s.buffer ++ " " ++ txt }
  else s

/-- `stopListening()`: snapshots the trimmed buffer, runs `cleanupVoice`
(which clears the buffer), then sends `{ answer: finalTranscript }` only if
the snapshot is non-empty and the socket is open; otherwise a notice is
surfaced only when the snapshot was empty. -/
def stopListening (s : St) : St :=
  let finalTranscript := jsTrim s.buffer
  let s1 := cleanupVoice s
  if finalTranscript ≠ "" ∧ s1.wsPresent = true ∧ s1.wsOpen = true then
    { s1 with sent := s1.sent ++ [OutMsg.answerMsg finalTranscript none none]
              currentTranscript := ""
              buffer := "" }
  else if finalTranscript = "" then
    { s1 with error := some "No speech detected. Please try speaking again." }
  else s1

/-- The canned phrase of the voice-test button. -/
def cannedTestPhrase : String := "Hello! This is a test of my voice. How do I sound?"

/-- The voice-test button handler: remembers the current selection,
temporarily selects the tested voice, speaks the canned phrase through
`speakText`, then restores the remembered selection. -/
def testVoice (s : St) (voice : String) (ttsOk synthAvail : Bool) : St :=
  let originalVoice := s.selectedVoice
  let s1 := { s with selectedVoice := some voice }
  let s2 := speakText s1 cannedTestPhrase ttsOk synthAvail
  { s2 with selectedVoice := originalVoice }

/-- The `visibilitychange` handler (`onVisibilityChange`) on a transition to
hidden: guarded only by `setupComplete`; increments the tab-switch counter,
reports it when the socket is open, shows the graduated warnings, and from
count 3 on sends `{ answer: "end interview" }` through `ws?.send` and marks
the interview ended by the proctor. -/
def onVisibilityHidden (s : St) : St :=
  if s.setupComplete = true then
    let n := s.tabSwitchCount + 1
    let s1 := { s with tabSwitchCount := n }
    let s2 :=
      if s1.wsPresent = true ∧ s1.wsOpen = true then
        { s1 with sent := s1.sent ++ [OutMsg.tabSwitch n] }
      else s1
    let s3 :=
      if n = 1 then { s2 with proctorWarning := some "You left the tab. 2 chances left!" } else s2
    let s4 :=
      if n = 2 then { s3 with proctorWarning := some "Last warning: Next tab switch will end your interview!" } else s3
    if 3 ≤ n then
      { s4 with sent := if s4.wsPresent = true then s4.sent ++ [endInterviewMsg] else s4.sent
                error := some "Interview ended: Too many tab switches."
                interviewEndedByProctor := true }
    else s4
  else s

/-- The `fullscreenchange` handler (`handleFullscreenChange`): records the
new fullscreen flag; an exit while `setupComplete` and not already ended by
the proctor increments the exit counter, reports it when the socket is open,
warns and schedules an automatic re-entry at count 1, and at count 2 or more
marks the interview ended and sends the termination frame with the
fullscreen reason. -/
def onFullscreenChange (s : St) (nowFullscreen : Bool) : St :=
  let s0 := { s with isFullscreen := nowFullscreen }
  if nowFullscreen = false ∧ s0.setupComplete = true ∧ s0.interviewEndedByProctor = false then
    let n := s0.fullscreenExitCount + 1
    let s1 := { s0 with fullscreenExitCount := n }
    let s2 :=
      if s1.wsPresent = true ∧ s1.wsOpen = true then
        { s1 with sent := s1.sent ++ [OutMsg.fullscreenViolation n] }
      else s1
    if n = 1 then
      { s2 with fullscreenWarning := some "Warning: Fullscreen mode is required. Please return to fullscreen. 1 chance left!"
                showFullscreenPrompt := true }
    else
      { s2 with fullscreenWarning := some "Interview ended: Multiple fullscreen violations detected."
                interviewEndedByProctor := true
                sent := if s2.wsPresent = true ∧ s2.wsOpen = true then
                          s2.sent ++ [OutMsg.answerMsg "end interview" (some "fullscreen_violations") (some n)]
                        else s2.sent }
  else s0

/-- One firing of the timer effect: returns immediately when the timer is
inactive or the session is complete or proctor-ended; at zero seconds it
deactivates the timer, sends the termination frame through `ws?.send`,
surfaces the time-limit error and marks the interview ended; otherwise the
scheduled timeout decrements the remaining seconds. -/
def timerStep (s : St) : St :=
  if s.timerActive = false ∨ s.isComplete = true ∨ s.interviewEndedByProctor = true then s
  else if s.timerSec = 0 then
    { s with timerActive := false
             sent := if s.wsPresent = true then s.sent ++ [endInterviewMsg] else s.sent
             error := some "Interview ended: Time limit reached."
             interviewEndedByProctor := true }
  else { s with timerSec := s.timerSec - 1 }

/-- The end-interview button: enabled only while connected and not already
finished; on confirmation sends the termination frame through `ws?.send`. -/
def endButtonClick (s : St) (confirmed : Bool) : St :=
  if s.isConnected = true ∧ s.isComplete = false ∧ s.interviewEndedByProctor = false ∧
      confirmed = true then
    if s.wsPresent = true then { s with sent := s.sent ++ [endInterviewMsg] } else s
  else s

/-- Specification-side definition (from the words of the spec, for claim
C3): the fragments `f1..fn` joined by single spaces. -/
def specJoin : List String → String
  | [] => ""
  | [f] => f
  | f :: g :: rest => f ++ " " ++ specJoin (g :: rest)

/-! Helper lemmas about the embedded string primitives. -/

theorem string_data_inj {a b : String} (h : a.data = b.data) : a = b := by
  cases a
  cases b
  exact congrArg String.mk h

theorem string_eq_empty_iff {s : String} : s = "" ↔ s.data = [] := by
  constructor
  · intro h
    rw [h]
  · intro h
    exact string_data_inj h

theorem rtrim_eq_nil_iff {l : List Char} : rtrim l = [] ↔ ∀ c ∈ l, isWs c = true := by
  unfold rtrim
  rw [List.reverse_eq_nil_iff, List.dropWhile_eq_nil_iff]
  constructor
  · intro h c hc
    exact h c (List.mem_reverse.mpr hc)
  · intro h c hc
    exact h c (List.mem_reverse.mp hc)

theorem forall_mem_ltrim_iff {l : List Char} :
    (∀ c ∈ ltrim l, isWs c = true) ↔ ∀ c ∈ l, isWs c = true := by
  unfold ltrim
  constructor
  · intro h c hc
    rw [← List.takeWhile_append_dropWhile (p := isWs) (l := l)] at hc
    rcases List.mem_append.mp hc with h1 | h2
    · exact List.mem_takeWhile_imp h1
    · exact h c h2
  · intro h c hc
    exact h c ((List.dropWhile_suffix isWs).subset hc)

theorem jsTrim_eq_empty_iff {s : String} : jsTrim s = "" ↔ ∀ c ∈ s.data, isWs c = true := by
  unfold jsTrim
  rw [string_eq_empty_iff]
  show rtrim (ltrim s.data) = [] ↔ _
  rw [rtrim_eq_nil_iff, forall_mem_ltrim_iff]

theorem exists_nonWs_of_trimmed {f : String} (hne : f ≠ "") (ht : jsTrim f = f) :
    ∃ c ∈ f.data, isWs c = false := by
  by_contra h
  push_neg at h
  have hall : ∀ c ∈ f.data, isWs c = true := by
    intro c hc
    cases hh : isWs c with
    | true => rfl
    | false => exact absurd hh (h c hc)
  have hempty : jsTrim f = "" := jsTrim_eq_empty_iff.mpr hall
  rw [ht] at hempty
  exact hne hempty

theorem jsTrim_ne_empty_of_mem {s : String} {c : Char} (hc : c ∈ s.data)
    (hw : isWs c = false) : jsTrim s ≠ "" := by
  intro h
  have := jsTrim_eq_empty_iff.mp h c hc
  rw [hw] at this
  exact Bool.false_ne_true this

theorem mem_specJoin_head {f : String} {rest : List String} {c : Char}
    (hc : c ∈ f.data) : c ∈ (specJoin (f :: rest)).data := by
  cases rest with
  | nil => simpa [specJoin] using hc
  | cons g gs =>
    show c ∈ (f ++ " " ++ specJoin (g :: gs)).data
    simp only [String.data_append, List.mem_append]
    exact Or.inl (Or.inl hc)

theorem specJoin_jsTrim_ne {f : String} {rest : List String}
    (hne : f ≠ "") (ht : jsTrim f = f) : jsTrim (specJoin (f :: rest)) ≠ "" := by
  obtain ⟨c, hc, hw⟩ := exists_nonWs_of_trimmed hne ht
  exact jsTrim_ne_empty_of_mem (mem_specJoin_head hc) hw

theorem appendChunk_empty_left (t : String) : appendChunk "" t = t := by
  unfold appendChunk
  simp

theorem appendChunk_of_ne {b : String} (hb : b ≠ "") (t : String) :
    appendChunk b t = b ++ " " ++ t := by
  unfold appendChunk
  rw [if_neg hb]

theorem append_ne_empty_left {a : String} (ha : a ≠ "") (b : String) : a ++ b ≠ "" := by
  intro h
  rw [string_eq_empty_iff, String.data_append, List.append_eq_nil] at h
  exact ha (string_eq_empty_iff.mpr h.1)

theorem specJoin_cons_cons (b f : String) (rest : List String) :
    specJoin ((b ++ " " ++ f) :: rest) = specJoin (b :: f :: rest) := by
  cases rest with
  | nil => rfl
  | cons g gs => simp [specJoin, String.append_assoc]

theorem foldl_appendChunk_of_ne :
    ∀ (fs : List String) (b : String), b ≠ "" → (∀ f ∈ fs, f ≠ "") →
      List.foldl appendChunk b fs = specJoin (b :: fs) := by
  intro fs
  induction fs with
  | nil =>
    intro b _ _
    rfl
  | cons f rest ih =>
    intro b hb hfs
    have hf : f ≠ "" := hfs f (by simp)
    have hrest : ∀ g ∈ rest, g ≠ "" := fun g hg => hfs g (by simp [hg])
    rw [List.foldl_cons, appendChunk_of_ne hb]
    have hb2 : (b ++ " " ++ f) ≠ "" := append_ne_empty_left (append_ne_empty_left hb " ") f
    rw [ih (b ++ " " ++ f) hb2 hrest, specJoin_cons_cons]

theorem foldl_appendChunk_eq_specJoin (fs : List String) (hfs : ∀ f ∈ fs, f ≠ "") :
    List.foldl appendChunk "" fs = specJoin fs := by
  cases fs with
  | nil => rfl
  | cons f rest =>
    have hf : f ≠ "" := hfs f (by simp)
    rw [List.foldl_cons, appendChunk_empty_left]
    exact foldl_appendChunk_of_ne rest f hf (fun g hg => hfs g (by simp [hg]))

/-! Claim theorems. -/

/-- A session state right after setup completed and the socket opened:
`setupComplete` holds, the socket is present and open, the timer runs. Used
as the start state of the claim C1 scenario. -/
def tabScenarioStart : St :=
  { initialState with
      setupComplete := true
      wsPresent := true
      wsOpen := true
      isConnected := true
      timerActive := true }

/-- Claim C1: the claim says that once the tab-switch counter reaches 3 and
the session is terminated, subsequent visibility-hidden events are no-ops
and at most one end-of-session message is ever sent. On the code this
fails: `onVisibilityChange` is guarded only by `document.hidden &&
setupComplete` and never checks `interviewEndedByProctor` (unlike
`handleFullscreenChange`), so after event 3 terminates the session, event 4
still increments the counter to 4 and, since `newCount >= 3` holds again,
sends a second `{ answer: "end interview" }` frame. This theorem evaluates
the model at that failing input: after three hidden events the session is
terminated with exactly one end message, and the fourth hidden event bumps
the counter to 4 and makes it two end messages. -/
theorem c1_hidden_event_after_termination_sends_second_end :
    (onVisibilityHidden (onVisibilityHidden (onVisibilityHidden
        tabScenarioStart))).interviewEndedByProctor = true ∧
    endCount (onVisibilityHidden (onVisibilityHidden (onVisibilityHidden
        tabScenarioStart))).sent = 1 ∧
    (onVisibilityHidden (onVisibilityHidden (onVisibilityHidden (onVisibilityHidden
        tabScenarioStart)))).tabSwitchCount = 4 ∧
    endCount (onVisibilityHidden (onVisibilityHidden (onVisibilityHidden (onVisibilityHidden
        tabScenarioStart)))).sent = 2 := by
  decide

/-- A state in which every `completeSetup` media precondition holds but
setup has not yet completed. Used by the claim C2 theorems. -/
def readyToStart : St :=
  { initialState with
      cameraPermission := Perm.granted
      micPermission := Perm.granted
      screenShareActive := true
      videoStreamPresent := true
      audioStreamPresent := true
      screenStreamPresent := true
      setupStep := SetupStep.ready }

/-- Claim C2, counterexample: with camera, microphone and screen share all
granted, a failed fullscreen request does not leave the phase unchanged —
`enterFullscreen` catches its own rejection, so `completeSetup` still sets
`setupComplete` and starts the timer, merely surfacing an error. -/
theorem c2_counterexample_fullscreen_failure_still_completes :
    (completeSetup readyToStart FsOutcome.fail).setupComplete = true ∧
    readyToStart.setupComplete = false ∧
    (completeSetup readyToStart FsOutcome.fail).timerActive = true ∧
    (completeSetup readyToStart FsOutcome.fail).error =
      some "Fullscreen mode is required for the interview. Please allow fullscreen access." := by
  decide

/-- Claim C2 (amended): `completeSetup()` completes setup (sets
`setupComplete` and starts the timer) exactly when camera permission,
microphone permission and screen share are all granted, regardless of the
fullscreen outcome; when any of those three preconditions fails the state
is fully unchanged; a failed fullscreen request only surfaces an error. -/
theorem c2_completeSetup_characterization (s : St) (fs : FsOutcome) :
    ((completeSetup s fs).setupComplete = (setupPreconds s || s.setupComplete)) ∧
    ((completeSetup s fs).timerActive = (setupPreconds s || s.timerActive)) ∧
    (setupPreconds s = false → completeSetup s fs = s) ∧
    (setupPreconds s = true → fs = FsOutcome.fail →
      (completeSetup s fs).error =
        some "Fullscreen mode is required for the interview. Please allow fullscreen access.") := by
  cases hp : setupPreconds s with
  | true =>
    cases fs <;> simp [completeSetup, enterFullscreenEff, hp]
  | false =>
    simp [completeSetup, hp]

/-- Claim C2, witness: the characterization applied to the concrete ready
state with a failing fullscreen request. -/
theorem c2_witness :
    ((completeSetup readyToStart FsOutcome.fail).setupComplete =
      (setupPreconds readyToStart || readyToStart.setupComplete)) ∧
    ((completeSetup readyToStart FsOutcome.fail).error =
      some "Fullscreen mode is required for the interview. Please allow fullscreen access.") := by
  refine ⟨(c2_completeSetup_characterization readyToStart FsOutcome.fail).1, ?_⟩
  exact (c2_completeSetup_characterization readyToStart FsOutcome.fail).2.2.2 (by decide) rfl

/-- Claim C4: the claim says a successful `requestPermissions()` never moves
the setup step from `'permissions'` directly to `'screen-share'`, skipping
voice selection. The code does exactly that: the success path of
`requestPermissions` ends with `setSetupStep('screen-share')`, so the
voice-selection step (whose entry button is only rendered inside the
permissions panel) is skipped. This theorem evaluates the success path: for
every state it lands on the screen-share step, which is not the
voice-selection step. -/
theorem c4_requestPermissions_skips_voice_selection (s : St) :
    (requestPermissionsSuccess s).setupStep = SetupStep.screenShare ∧
    SetupStep.screenShare ≠ SetupStep.voiceSelection :=
  ⟨rfl, by decide⟩

/-- Claim C5, counterexample: an inbound frame that parses as JSON but
matches none of the known variants (no `error`, no `type`, no `text`, no
counters — and one with an unrecognized `type`) does not surface any error:
the handler lets it fall into the question branch and leaves `error`
untouched, contradicting the claim that unknown shapes are treated as
`Error`. -/
theorem c5_counterexample_unknown_frame_surfaces_no_error :
    (onMessage initialState (Inbound.frame ⟨none, none, none, none, none⟩) true true).error =
      none ∧
    (onMessage initialState (Inbound.frame ⟨none, none, none, none, some "mystery"⟩)
        true true).error = none := by
  decide

/-- Claim C5 (amended): the `onmessage` handler never throws (every branch
is total and `JSON.parse` failures are caught, surfacing "Invalid response
from server"), and a frame whose `error` field is truthy surfaces that
error; but a JSON frame of unknown shape (falsy `error`, a `type` other
than the three handled ones, no `text`) is not treated as an error: it
falls through to the question branch, which leaves `error` unchanged,
sends nothing, and overwrites the question counter with the frame's absent
field. -/
theorem c5_unknown_frames_fall_through_question_branch :
    (∀ (s : St) (t y : Bool),
      (onMessage s Inbound.notJson t y).error = some "Invalid response from server") ∧
    (∀ (s : St) (e : String) (f : Frame) (t y : Bool), f.error = some e → e ≠ "" →
      (onMessage s (Inbound.frame f) t y).error = some e) ∧
    (∀ (s : St) (f : Frame) (t y : Bool),
      f.error = none →
      f.ty ≠ some "screen_share_request" →
      f.ty ≠ some "screen_share_confirmed" →
      f.ty ≠ some "interview_complete" →
      f.text = none →
      (onMessage s (Inbound.frame f) t y).error = s.error ∧
      (onMessage s (Inbound.frame f) t y).sent = s.sent ∧
      (onMessage s (Inbound.frame f) t y).questionCount = f.question_count) := by
  refine ⟨fun s t y => rfl, ?_, ?_⟩
  · intro s e f t y he hne
    simp [onMessage, he, jsTruthyStr, hne]
  · intro s f t y he h1 h2 h3 htext
    simp [onMessage, he, jsTruthyStr, h1, h2, h3, htext]

/-- Claim C5, witness: the amended statement applied to a garbage frame and
a non-JSON frame. -/
theorem c5_witness :
    (onMessage initialState Inbound.notJson true true).error =
      some "Invalid response from server" ∧
    (onMessage initialState (Inbound.frame ⟨none, none, none, none, some "mystery"⟩)
        true true).sent = [] := by
  refine ⟨c5_unknown_frames_fall_through_question_branch.1 initialState true true, ?_⟩
  exact (c5_unknown_frames_fall_through_question_branch.2.2 initialState
    ⟨none, none, none, none, some "mystery"⟩ true true rfl (by decide) (by decide)
    (by decide) rfl).2.1

/-- Claim C3: for any sequence of finalized transcript fragments `f1..fn`
appended during one capture activation (each fragment, as appended by the
Deepgram transcript handler, is a non-empty trimmed string and the buffer
is the single-space-separated accumulation of them), `stopListening()` with
an open socket sends exactly one `Answer` frame whose text is `f1..fn`
joined by single spaces and trimmed, without surfacing any notice; with no
fragments it sends nothing and surfaces the no-speech notice. -/
theorem c3_stop_sends_single_joined_answer (s : St) (fs : List String)
    (hfrag : ∀ f ∈ fs, f ≠ "" ∧ jsTrim f = f)
    (hbuf : s.buffer = List.foldl appendChunk "" fs)
    (hws : s.wsPresent = true) (hopen : s.wsOpen = true) :
    (fs ≠ [] →
      (stopListening s).sent =
        s.sent ++ [OutMsg.answerMsg (jsTrim (specJoin fs)) none none] ∧
      (stopListening s).error = s.error) ∧
    (fs = [] →
      (stopListening s).sent = s.sent ∧
      (stopListening s).error = some "No speech detected. Please try speaking again.") := by
  have hjoin : s.buffer = specJoin fs := by
    rw [hbuf, foldl_appendChunk_eq_specJoin fs (fun f hf => (hfrag f hf).1)]
  constructor
  · intro hne
    obtain ⟨f, rest, rfl⟩ : ∃ f rest, fs = f :: rest := by
      cases fs with
      | nil => exact absurd rfl hne
      | cons f rest => exact ⟨f, rest, rfl⟩
    have hf := hfrag f (by simp)
    have htrimne : jsTrim s.buffer ≠ "" := by
      rw [hjoin]
      exact specJoin_jsTrim_ne hf.1 hf.2
    have hcond : jsTrim s.buffer ≠ "" ∧ (cleanupVoice s).wsPresent = true ∧
        (cleanupVoice s).wsOpen = true := ⟨htrimne, hws, hopen⟩
    simp only [stopListening, if_pos hcond]
    constructor
    · show (cleanupVoice s).sent ++ _ = _
      rw [hjoin]
      rfl
    · rfl
  · intro hnil
    subst hnil
    have hb : s.buffer = "" := hjoin
    have htrim : jsTrim s.buffer = "" := by
      rw [hb]
      decide
    have hcond : ¬(jsTrim s.buffer ≠ "" ∧ (cleanupVoice s).wsPresent = true ∧
        (cleanupVoice s).wsOpen = true) := fun h => h.1 htrim
    simp only [stopListening, if_neg hcond, if_pos htrim]
    exact ⟨rfl, trivial⟩

/-- Claim C3, witness: two fragments "hello" and "world" accumulated in the
buffer produce exactly one `Answer` frame with text "hello world". -/
theorem c3_witness :
    (stopListening
        { initialState with wsPresent := true, wsOpen := true, buffer := "hello world" }).sent =
      [OutMsg.answerMsg (jsTrim (specJoin ["hello", "world"])) none none] := by
  have h := c3_stop_sends_single_joined_answer
    { initialState with wsPresent := true, wsOpen := true, buffer := "hello world" }
    ["hello", "world"] (by decide) (by decide) rfl rfl
  simpa using (h.1 (by decide)).1

/-- Claim C6: the claim says that with no supported audio encoding,
`startListening()` aborts before opening the transcription session,
surfaces an error and stays not listening. On the code this fails: when no
candidate MIME type passes `MediaRecorder.isTypeSupported`, the code logs
"Using default MediaRecorder format", constructs the recorder without a
format, and proceeds to open the Deepgram live session — capture ends up
listening with no error surfaced. -/
theorem c6_counterexample_unsupported_mime_still_opens_session :
    (startListening
        { initialState with audioStreamPresent := true, wsPresent := true, wsOpen := true }
        (fun _ => false) true true true).dgPresent = true ∧
    (startListening
        { initialState with audioStreamPresent := true, wsPresent := true, wsOpen := true }
        (fun _ => false) true true true).isListening = true ∧
    (startListening
        { initialState with audioStreamPresent := true, wsPresent := true, wsOpen := true }
        (fun _ => false) true true true).error = none ∧
    pickMime (fun _ => false) = none := by
  decide

/-- Claim C6 (amended): when the token fetch, the recording stream and the
recorder constructor all succeed, `startListening()` opens the streaming
transcription session and sets the listening flag whatever the codec
support — an unsupported candidate list only means the recorder is created
with the browser default format (`recorderMime = none`); an error is
surfaced and listening left false only when one of the awaited steps (here
the recorder constructor) throws. -/
theorem c6_startListening_default_format_fallback (s : St) (isSup : String → Bool)
    (haud : s.audioStreamPresent = true) (hws : s.wsPresent = true)
    (hopen : s.wsOpen = true) :
    ((startListening s isSup true true true).dgPresent = true ∧
     (startListening s isSup true true true).isListening = true ∧
     (startListening s isSup true true true).recorderPresent = true ∧
     (startListening s isSup true true true).recorderMime = pickMime isSup ∧
     (startListening s isSup true true true).error = s.error) ∧
    ((startListening s isSup true true false).isListening = false ∧
     (startListening s isSup true true false).error =
        some "Could not start voice recognition." ∧
     (startListening s isSup true true false).dgPresent = false) := by
  have hc : s.audioStreamPresent = true ∧ s.wsPresent = true ∧ s.wsOpen = true :=
    ⟨haud, hws, hopen⟩
  refine ⟨?_, ?_⟩ <;> simp [startListening, cleanupVoice, if_pos hc]

/-- Claim C6, witness: the amended statement at a concrete ready state with
a codec-support predicate that rejects every candidate. -/
theorem c6_witness :
    (startListening
        { initialState with audioStreamPresent := true, wsPresent := true, wsOpen := true }
        (fun _ => false) true true true).recorderMime = pickMime (fun _ => false) ∧
    (startListening
        { initialState with audioStreamPresent := true, wsPresent := true, wsOpen := true }
        (fun _ => false) true true false).isListening = false := by
  have h := c6_startListening_default_format_fallback
    { initialState with audioStreamPresent := true, wsPresent := true, wsOpen := true }
    (fun _ => false) rfl rfl rfl
  exact ⟨h.1.2.2.2.1, h.2.1⟩

/-- Claim C7: the claim says that when the user ends the screen share after
the session is active while the socket is open, the one-shot `onended`
handler sends `ScreenShareStatus(ended)` and does not itself terminate the
session. On the code the second half holds but the first fails: the handler
is a closure created inside `startScreenShare`, which is only invocable
from the setup screen, so the guard `if (setupComplete && ws)` reads the
setup-time render values `setupComplete = false` and `ws = null` — the
ended message is never sent. This theorem replays the full scenario: share
started during setup, setup completed, socket opened (session active), then
the share ends — the send log still contains only the `started` handshake,
and the session is not terminated. -/
theorem c7_stale_closure_never_sends_ended :
    (onWsOpen (completeSetup (startScreenShareSuccess
        { initialState with
            cameraPermission := Perm.granted
            micPermission := Perm.granted
            videoStreamPresent := true
            audioStreamPresent := true
            setupStep := SetupStep.screenShare }) FsOutcome.ok)).setupComplete = true ∧
    (onWsOpen (completeSetup (startScreenShareSuccess
        { initialState with
            cameraPermission := Perm.granted
            micPermission := Perm.granted
            videoStreamPresent := true
            audioStreamPresent := true
            setupStep := SetupStep.screenShare }) FsOutcome.ok)).wsOpen = true ∧
    (screenShareEnded (onWsOpen (completeSetup (startScreenShareSuccess
        { initialState with
            cameraPermission := Perm.granted
            micPermission := Perm.granted
            videoStreamPresent := true
            audioStreamPresent := true
            setupStep := SetupStep.screenShare }) FsOutcome.ok))).sent =
      [OutMsg.screenShare "started"] ∧
    (screenShareEnded (onWsOpen (completeSetup (startScreenShareSuccess
        { initialState with
            cameraPermission := Perm.granted
            micPermission := Perm.granted
            videoStreamPresent := true
            audioStreamPresent := true
            setupStep := SetupStep.screenShare }) FsOutcome.ok))).screenShareActive = false ∧
    (screenShareEnded (onWsOpen (completeSetup (startScreenShareSuccess
        { initialState with
            cameraPermission := Perm.granted
            micPermission := Perm.granted
            videoStreamPresent := true
            audioStreamPresent := true
            setupStep := SetupStep.screenShare }) FsOutcome.ok))).interviewEndedByProctor =
      false := by
  decide

theorem timerStep_terminal {s : St}
    (h : s.isComplete = true ∨ s.interviewEndedByProctor = true) : timerStep s = s := by
  rcases h with h | h <;> simp [timerStep, h]

theorem endCount_append_end (l : List OutMsg) :
    endCount (l ++ [endInterviewMsg]) = endCount l + 1 := by
  simp [endCount, List.filter_append, isEndMessage, endInterviewMsg]

/-- Claim C8: the session timer starts at the fixed 600-second budget when
setup completes; each firing while the session is active decrements it by
one; reaching 0 while active terminates the session and sends the
end-of-session frame exactly once (the very next firing, and every later
one, is the identity because the proctor-ended flag is set and the timer is
deactivated); and reaching 0 while the session is already complete or
terminated is a no-op that sends nothing. -/
theorem c8_timer_budget_and_one_shot_expiry :
    (initialState.timerSec = TIMER_SEC ∧ TIMER_SEC = 600) ∧
    (∀ (s : St) (fs : FsOutcome), setupPreconds s = true →
      (completeSetup s fs).timerActive = true ∧ (completeSetup s fs).timerSec = s.timerSec) ∧
    (∀ s : St, s.timerActive = true → s.isComplete = false →
      s.interviewEndedByProctor = false → s.timerSec ≠ 0 →
      timerStep s = { s with timerSec := s.timerSec - 1 }) ∧
    (∀ s : St, s.timerActive = true → s.isComplete = false →
      s.interviewEndedByProctor = false → s.timerSec = 0 → s.wsPresent = true →
      endCount (timerStep s).sent = endCount s.sent + 1 ∧
      (timerStep s).interviewEndedByProctor = true ∧
      timerStep (timerStep s) = timerStep s) ∧
    (∀ s : St, s.isComplete = true ∨ s.interviewEndedByProctor = true →
      timerStep s = s ∧ endCount (timerStep s).sent = endCount s.sent) := by
  refine ⟨⟨rfl, rfl⟩, ?_, ?_, ?_, ?_⟩
  · intro s fs hp
    cases fs <;> simp [completeSetup, enterFullscreenEff, hp]
  · intro s ha hc he h0
    simp [timerStep, ha, hc, he, h0]
  · intro s ha hc he h0 hws
    have hterm : (timerStep s).interviewEndedByProctor = true := by
      simp [timerStep, ha, hc, he, h0]
    refine ⟨?_, hterm, timerStep_terminal (Or.inr hterm)⟩
    have hsent : (timerStep s).sent = s.sent ++ [endInterviewMsg] := by
      simp [timerStep, ha, hc, he, h0, hws]
    rw [hsent, endCount_append_end]
  · intro s h
    have hstop := timerStep_terminal h
    exact ⟨hstop, by rw [hstop]⟩

/-- Claim C8, witness: the decrement, expiry and terminal-no-op conjuncts
at concrete states. -/
theorem c8_witness :
    (timerStep { initialState with timerActive := true, timerSec := 5 } =
      { initialState with timerActive := true, timerSec := 4 }) ∧
    (endCount (timerStep
        { initialState with timerActive := true, timerSec := 0, wsPresent := true }).sent =
      endCount ({ initialState with
        timerActive := true, timerSec := 0, wsPresent := true } : St).sent + 1) ∧
    (timerStep { initialState with isComplete := true, timerActive := true, timerSec := 0 } =
      { initialState with isComplete := true, timerActive := true, timerSec := 0 }) := by
  refine ⟨?_, ?_, ?_⟩
  · have h := c8_timer_budget_and_one_shot_expiry.2.2.1
      { initialState with timerActive := true, timerSec := 5 } rfl rfl rfl (by decide)
    simpa using h
  · exact (c8_timer_budget_and_one_shot_expiry.2.2.2.1
      { initialState with timerActive := true, timerSec := 0, wsPresent := true }
      rfl rfl rfl rfl rfl).1
  · exact (c8_timer_budget_and_one_shot_expiry.2.2.2.2
      { initialState with isComplete := true, timerActive := true, timerSec := 0 }
      (Or.inl rfl)).1

/-- Claim C9: testing a voice is a round trip on the selected-voice state.
Started from a state in which nothing is being spoken, `testVoice` restores
the previously selected voice and changes no session state at all — the
only difference is the ghost log recording that the canned phrase was
handed to the playback path. -/
theorem c9_testVoice_roundtrip (s : St) (voice : String) (ttsOk synthAvail : Bool)
    (h : s.isSpeaking = false) :
    testVoice s voice ttsOk synthAvail =
      { s with spoken := (testVoice s voice ttsOk synthAvail).spoken } := by
  unfold testVoice speakText
  split
  · cases s
    simp_all
  · cases ttsOk <;> cases synthAvail <;> cases s <;> simp_all

/-- Claim C9, witness: the round trip at the initial state testing a
concrete voice. -/
theorem c9_witness :
    testVoice initialState "voiceA" true true =
      { initialState with spoken := (testVoice initialState "voiceA" true true).spoken } :=
  c9_testVoice_roundtrip initialState "voiceA" true true rfl

/-- Claim C10: calling `stopListening()` with a non-empty (trimmed) buffer
while the socket is absent or not open sends nothing, surfaces no notice
(the no-speech branch only fires on an empty transcript), and irrecoverably
clears the buffer and interim transcript via `cleanupVoice` — the answer is
silently lost. -/
theorem c10_stop_without_open_socket_silently_drops_answer (s : St)
    (hbuf : jsTrim s.buffer ≠ "")
    (hws : ¬(s.wsPresent = true ∧ s.wsOpen = true)) :
    (stopListening s).sent = s.sent ∧
    (stopListening s).error = s.error ∧
    (stopListening s).buffer = "" ∧
    (stopListening s).currentTranscript = "" ∧
    (stopListening s).isListening = false := by
  have hcond : ¬(jsTrim s.buffer ≠ "" ∧ (cleanupVoice s).wsPresent = true ∧
      (cleanupVoice s).wsOpen = true) := fun hc => hws ⟨hc.2.1, hc.2.2⟩
  simp only [stopListening, if_neg hcond, if_neg hbuf]
  exact ⟨rfl, rfl, rfl, rfl, rfl⟩

/-- Claim C10, witness: a buffered "hello" answer is dropped when the
socket was never opened. -/
theorem c10_witness :
    (stopListening { initialState with buffer := "hello", isListening := true }).sent = [] ∧
    (stopListening { initialState with buffer := "hello", isListening := true }).error =
      none ∧
    (stopListening { initialState with buffer := "hello", isListening := true }).buffer =
      "" := by
  have h := c10_stop_without_open_socket_silently_drops_answer
    { initialState with buffer := "hello", isListening := true } (by decide) (by decide)
  exact ⟨h.1, h.2.1, h.2.2.1⟩

end InterviewPage
